import Mathlib

/-!
Shallow embedding of the row-parsing / filtering / essentials / batched-upload
pipeline of `upload_to_kv.py` (repository cf_ai_CloudInterview), together with
theorems settling the specification claims about it.

Conventions of the embedding:
* Python dicts become association lists in insertion order (keys unique).
* Python strings become `String`; `str.strip()` becomes `pyStrip`.
* `int(s)` / `float(s)` failures (ValueError/TypeError, caught by the source's
  `except` branches) become `Option`/best-effort defaults, matching the source.
* The remote store's write outcome is an oracle `ok : String → Bool` on keys
  (a 2xx response is `true`; any error status or raised exception is `false`).
-/

namespace CloudInterview

/-! ## Python string and dict primitives -/

/-- Python `str.strip()`: remove leading and trailing whitespace (modelled on
the ASCII whitespace of `Char.isWhitespace`). -/
def pyStrip (s : String) : String :=
  let l := s.toList.dropWhile (fun c => c.isWhitespace)
  String.mk ((l.reverse.dropWhile (fun c => c.isWhitespace)).reverse)

/-- Python `s.split(sep)` for a one-character separator: split at every
occurrence, keeping empty pieces, so the result is always non-empty. -/
def pySplitChar (sep : Char) : List Char → List Char → List String
  | [], acc => [String.mk acc.reverse]
  | c :: cs, acc =>
    if c == sep then String.mk acc.reverse :: pySplitChar sep cs []
    else pySplitChar sep cs (c :: acc)

/-- Python `s.replace(old, '')` for the one-character pattern used by the
source (`replace('%', '')`): drop every occurrence of the character. -/
def pyRemoveChar (s : String) (old : Char) : String :=
  String.mk (s.toList.filter (fun c => c != old))

/-- Python `s.endswith(suffix)`. -/
def pyEndsWith (s suffix : String) : Bool :=
  suffix.toList.isSuffixOf s.toList

/-- Python `str.strip(chars)`: drop from both ends every character contained in
`chars`, in any order and multiplicity. -/
def pyStripChars (s : String) (chars : List Char) : String :=
  let l := s.toList.dropWhile (fun c => chars.contains c)
  String.mk ((l.reverse.dropWhile (fun c => chars.contains c)).reverse)

/-- Python `row.get(key, dflt)` on a dict given as an association list. -/
def dictGet (row : List (String × String)) (key dflt : String) : String :=
  match row.find? (fun kv => kv.1 == key) with
  | some kv => kv.2
  | none => dflt

/-- Digits of a Python decimal int literal after the first digit: single
underscores may separate digits; anything else fails. -/
def pyDigits : List Char → Nat → Option Nat
  | [], acc => some acc
  | '_' :: c :: cs, acc =>
    if c.isDigit then pyDigits cs (acc * 10 + (c.toNat - 48)) else none
  | c :: cs, acc =>
    if c.isDigit then pyDigits cs (acc * 10 + (c.toNat - 48)) else none

/-- Python `int(s)` on a string: surrounding whitespace, an optional sign, then
decimal digits (single underscores allowed between digits). Any other string —
in particular a float-like one such as `"1.0"` — raises ValueError, modelled as
`none`. -/
def parsePyInt (s : String) : Option Int :=
  match (pyStrip s).toList with
  | '+' :: c :: cs =>
    if c.isDigit then (pyDigits cs (c.toNat - 48)).map (fun n => (n : Int)) else none
  | '-' :: c :: cs =>
    if c.isDigit then (pyDigits cs (c.toNat - 48)).map (fun n => -(n : Int)) else none
  | c :: cs =>
    if c.isDigit then (pyDigits cs (c.toNat - 48)).map (fun n => (n : Int)) else none
  | [] => none

/-- Exponent suffix of a Python float literal: empty, or `e`/`E`, an optional
sign and at least one digit. -/
def pyFloatExp : List Char → Bool
  | [] => true
  | c :: rest =>
    if c == 'e' || c == 'E' then
      match rest with
      | '+' :: ds => !ds.isEmpty && ds.all (fun d => d.isDigit)
      | '-' :: ds => !ds.isEmpty && ds.all (fun d => d.isDigit)
      | ds => !ds.isEmpty && ds.all (fun d => d.isDigit)
    else false

/-- Unsigned part of a Python float literal: digits with an optional fractional
part, or a leading-dot fraction, followed by an optional exponent. -/
def pyFloatMantissa (cs : List Char) : Bool :=
  let intPart := cs.takeWhile (fun c => c.isDigit)
  let rest := cs.dropWhile (fun c => c.isDigit)
  match rest with
  | '.' :: rest2 =>
    let frac := rest2.takeWhile (fun c => c.isDigit)
    let rest3 := rest2.dropWhile (fun c => c.isDigit)
    (!intPart.isEmpty || !frac.isEmpty) && pyFloatExp rest3
  | r => !intPart.isEmpty && pyFloatExp r

/-- Whether Python `float(s)` accepts the string. The binary64 value itself is
not modelled (no claim depends on it); digit-group underscores and the
`inf`/`nan` spellings are likewise outside the model. -/
def pyFloatAccepts (s : String) : Bool :=
  match (pyStrip s).toList with
  | '+' :: cs => pyFloatMantissa cs
  | '-' :: cs => pyFloatMantissa cs
  | cs => pyFloatMantissa cs

/-! ## Filter Policy (`should_process_problem`, upload_to_kv.py lines 115-127) -/

/-- Determine if a problem should be processed based on the filtering rules:
process ID 1262, and process IDs `>= 1931`. -/
def should_process_problem (problem_id : Int) : Bool :=
  if problem_id == 1262 then true
  else if problem_id ≥ 1931 then true
  else false

/-! ## Record Normalizer, tabular source (`parse_csv_row`, lines 130-244) -/

/-- Metadata sub-dictionary attached to every parsed problem.
`similar_questions` is stored in the dict only when non-empty; the empty list
models the absent key. `acceptance_rate` keeps the cleaned text accepted by
`float(...)` (the binary64 value is abstracted; no claim inspects it). -/
structure Metadata where
  category : String
  topics : List String
  hints : List String
  acceptance_rate : Option String
  likes : Int
  dislikes : Int
  similar_questions : List String
  extra : List (String × String)
deriving DecidableEq, Repr

/-- The canonical Problem record built by `parse_csv_row`. `solution_codes`
lists the `solution_code_<lang>` keys attached only when present and non-empty
in the raw row. -/
structure Problem where
  id : Int
  difficulty : String
  title : String
  titleSlug : String
  url : String
  description : String
  solution_codes : List (String × String)
  metadata : Metadata
deriving DecidableEq, Repr

/-- The inline list-literal parsing used for `topics`, `hints` and
`similar_questions` (lines 151-169): strip the field, strip `[` and `]` from
the ends, split on commas, keep the pieces whose strip is non-blank, and map
each kept piece to its whitespace-stripped, quote-stripped text. -/
def parseListField (raw : String) : List String :=
  let s := pyStrip raw
  if s = "" then []
  else
    (pySplitChar ',' (pyStripChars s ['[', ']']).toList []).filterMap fun piece =>
      let t := pyStrip piece
      if t = "" then none else some (pyStripChars t ['"'])

/-- The recognized column names excluded from the catch-all metadata loop
(lines 229-233). -/
def recognizedKeys : List String :=
  ["difficulty", "frontendQuestionId", "paidOnly", "title", "titleSlug", "url",
   "description_url", "description", "solution_url", "solution",
   "solution_code_python", "solution_code_java", "solution_code_cpp",
   "solution_code_url", "category", "acceptance_rate", "topics",
   "hints", "likes", "dislikes", "similar_questions", "stats"]

/-- The Problem record assembled (lines 150-240) for a row whose identifier
parsed to `problem_id` and passed the filter; every field here is best-effort
and cannot invalidate the row. -/
def csvProblemOf (row : List (String × String)) (problem_id : Int) : Problem :=
  { id := problem_id
    difficulty := pyStrip (dictGet row "difficulty" "")
    title := pyStrip (dictGet row "title" "")
    titleSlug := pyStrip (dictGet row "titleSlug" "")
    url := pyStrip (dictGet row "url" "")
    description := pyStrip (dictGet row "description" "")
    solution_codes :=
      ["python", "java", "cpp"].filterMap fun lang =>
        let code_key := "solution_code_" ++ lang
        match row.find? (fun kv => kv.1 == code_key) with
        | some kv => if kv.2 = "" then none else some (code_key, kv.2)
        | none => none
    metadata :=
      { category := pyStrip (dictGet row "category" "")
        topics := parseListField (dictGet row "topics" "")
        hints := parseListField (dictGet row "hints" "")
        acceptance_rate :=
          let s := pyStrip (dictGet row "acceptance_rate" "")
          if s = "" then none
          else
            let cleaned := pyStrip (pyRemoveChar s '%')
            if pyFloatAccepts cleaned then some cleaned else none
        likes :=
          let v := pyStrip (dictGet row "likes" "")
          if v = "" then 0 else (parsePyInt v).getD 0
        dislikes :=
          let v := pyStrip (dictGet row "dislikes" "")
          if v = "" then 0 else (parsePyInt v).getD 0
        similar_questions := parseListField (dictGet row "similar_questions" "")
        extra :=
          row.filterMap fun kv =>
            if recognizedKeys.contains kv.1 then none
            else if kv.2 ≠ "" ∧ pyStrip kv.2 ≠ "" then some (kv.1, pyStrip kv.2)
            else none } }

/-- Parse a single CSV row into a structured problem, `none` when the row is
invalid. Mirrors `parse_csv_row`: a blank identifier, an identifier rejected by
`int(...)` (ValueError, caught by the `except` branch and returned as `None`),
or a filtered-out id invalidates the row; every other field is best-effort and
assembled by `csvProblemOf`. -/
def parse_csv_row (row : List (String × String)) : Option Problem :=
  let frontend_question_id := pyStrip (dictGet row "frontendQuestionId" "")
  if frontend_question_id = "" then none
  else
    match parsePyInt frontend_question_id with
    | none => none
    | some problem_id =>
      if should_process_problem problem_id then some (csvProblemOf row problem_id)
      else none

/-! ## Record Normalizer, structured source (`parse_json_problem`, lines 247-275) -/

/-- A JSON value as handed to `parse_json_problem` (the structured source's
already-typed fields). JSON numbers other than integers do not occur in the
fields the function reads. -/
inductive JVal where
  | null : JVal
  | str : String → JVal
  | int : Int → JVal
  | arr : List JVal → JVal

/-- Python truthiness of a JSON value: `None`, `""`, `0` and `[]` are falsy. -/
def JVal.truthy : JVal → Bool
  | .null => false
  | .str s => s != ""
  | .int n => n != 0
  | .arr l => !l.isEmpty

/-- Python `int(v)` on a typed JSON value: ints pass through, strings parse as
decimal; any other type raises TypeError, caught by the `except` branch. -/
def pyIntOfJVal : JVal → Option Int
  | .int n => some n
  | .str s => parsePyInt s
  | _ => none

/-- Python `d.get(key)` on a typed JSON object. -/
def jGet (d : List (String × JVal)) (key : String) : Option JVal :=
  (d.find? (fun kv => kv.1 == key)).map (fun kv => kv.2)

/-- Python `d.get(key, dflt)` on a typed JSON object: the default applies only
when the key is absent (a key present with `null` stays `null`). -/
def jGetD (d : List (String × JVal)) (key : String) (dflt : JVal) : JVal :=
  (jGet d key).getD dflt

/-- Metadata dict built by `parse_json_problem`: `topics` passes through typed
as-is, `category` defaults to `"General"` when the key is absent. -/
structure JsonMetadata where
  topics : JVal
  category : JVal

/-- The problem dict built by `parse_json_problem` (lines 260-271). -/
structure JsonProblem where
  id : Int
  difficulty : JVal
  title : JVal
  titleSlug : JVal
  url : JVal
  description : JVal
  metadata : JsonMetadata

/-- The problem dict assembled (lines 260-271) for a structured entry whose
`questionId` was truthy, parsed to `problem_id` and passed the filter. -/
def jsonProblemOf (json_data : List (String × JVal)) (problem_id : Int) : JsonProblem :=
  { id := problem_id
    difficulty := jGetD json_data "difficulty" (JVal.str "")
    title := jGetD json_data "title" (JVal.str "")
    titleSlug := jGetD json_data "titleSlug" (JVal.str "")
    url := jGetD json_data "url" (JVal.str "")
    description := jGetD json_data "description" (JVal.str "")
    metadata :=
      { topics := jGetD json_data "topics" (JVal.arr [])
        category := jGetD json_data "category" (JVal.str "General") } }

/-- Parse a JSON problem entry into a structured problem dictionary, `none`
when invalid: a falsy `questionId`, an `int(...)` failure (caught by the
`except` branch), or a filtered-out id drops the entry. -/
def parse_json_problem (json_data : List (String × JVal)) : Option JsonProblem :=
  let question_id := jGetD json_data "questionId" JVal.null
  if question_id.truthy then
    match pyIntOfJVal question_id with
    | none => none
    | some problem_id =>
      if should_process_problem problem_id then some (jsonProblemOf json_data problem_id)
      else none
  else none

/-! ## Essentials Builder (`create_essentials_entry`, lines 278-307) -/

/-- One 5-field summary of the essentials index. -/
structure Essential where
  id : Int
  title : String
  difficulty : String
  category : String
  topics : List String
deriving DecidableEq, Repr

/-- The essentials dict: `last_updated` is built as `None` ("will be set when
uploaded", line 306) and stamped by the caller at upload time (line 386). -/
structure EssentialsEntry where
  problems : List Essential
  count : Nat
  last_updated : Option String
deriving DecidableEq, Repr

/-- Projection of one problem to its essentials summary (lines 291-297). -/
def essentialOf (p : Problem) : Essential :=
  { id := p.id, title := p.title, difficulty := p.difficulty,
    category := p.metadata.category, topics := p.metadata.topics }

/-- The comparison underlying `essentials.sort(key=lambda x: x["id"])`. -/
def essLE (a b : Essential) : Prop := a.id ≤ b.id

instance : DecidableRel essLE := fun a b => (inferInstance : Decidable (a.id ≤ b.id))

instance : IsTotal Essential essLE := ⟨fun a b => Int.le_total a.id b.id⟩

instance : IsTrans Essential essLE := ⟨fun _ _ _ h1 h2 => le_trans h1 h2⟩

/-- Create the essentials entry for all problems: project each problem to its
5-field summary, sort by id ascending, attach the count and the `None`
placeholder for `last_updated`. Python's `list.sort` is a stable sort; a
stable ascending sort by a total key is unique as a function, so insertion
sort models it exactly. -/
def create_essentials_entry (problems : List Problem) : EssentialsEntry :=
  let essentials := (problems.map essentialOf).insertionSort essLE
  { problems := essentials, count := essentials.length, last_updated := none }

/-- The caller's stamping of the timestamp before upload (line 386,
`essentials["last_updated"] = str(int(time.time()))`). -/
def stamp_last_updated (e : EssentialsEntry) (now : String) : EssentialsEntry :=
  { e with last_updated := some now }

/-! ## Compact JSON serialization of the essentials entry
(`json.dumps(essentials, ensure_ascii=False, separators=(',', ':'))`,
line 389; keys in dict insertion order). -/

/-- Lower-case hex digit. -/
def hexDigit (n : Nat) : Char :=
  if n < 10 then Char.ofNat (48 + n) else Char.ofNat (87 + n)

/-- Escaping of one character as in `json.dumps` with `ensure_ascii=False`. -/
def jsonEscapeChar (c : Char) : String :=
  if c = '"' then "\\\""
  else if c = '\\' then "\\\\"
  else if c = '\n' then "\\n"
  else if c = '\t' then "\\t"
  else if c = '\r' then "\\r"
  else if c.toNat = 8 then "\\b"
  else if c.toNat = 12 then "\\f"
  else if c.toNat < 32 then
    "\\u00" ++ String.mk [hexDigit (c.toNat / 16), hexDigit (c.toNat % 16)]
  else String.singleton c

/-- JSON string literal. -/
def jsonStr (s : String) : String :=
  "\"" ++ String.join (s.toList.map jsonEscapeChar) ++ "\""

/-- JSON array of strings. -/
def jsonStrList (l : List String) : String :=
  "[" ++ String.intercalate "," (l.map jsonStr) ++ "]"

/-- Compact JSON of one essentials summary, keys in insertion order. -/
def essentialJson (e : Essential) : String :=
  "\x7b\"id\":" ++ toString e.id ++
  ",\"title\":" ++ jsonStr e.title ++
  ",\"difficulty\":" ++ jsonStr e.difficulty ++
  ",\"category\":" ++ jsonStr e.category ++
  ",\"topics\":" ++ jsonStrList e.topics ++ "\x7d"

/-- Compact JSON of the essentials entry, keys in insertion order; a missing
timestamp serializes as `null` (Python `None`). -/
def essentialsJson (entry : EssentialsEntry) : String :=
  "\x7b\"problems\":[" ++
    String.intercalate "," (entry.problems.map essentialJson) ++
  "],\"count\":" ++ toString entry.count ++
  ",\"last_updated\":" ++
    (match entry.last_updated with
     | none => "null"
     | some t => jsonStr t) ++ "\x7d"

/-! ## Batch Uploader (`CloudflareKVUploader.put_bulk`, lines 77-112, and the
batching loop of `upload_file_to_kv`, lines 366-380) -/

/-- Upload multiple key-value pairs: one independent write per entry, tallying
`(success, failed)`; a failed write (non-2xx status or raised exception, both
`ok key = false` under the oracle) never stops the loop. The stored value does
not influence the outcome, so the entry's value type is left generic. -/
def put_bulk {V : Type} (ok : String → Bool) (entries : List (String × V)) : Nat × Nat :=
  entries.foldl
    (fun results entry =>
      if ok entry.1 then (results.1 + 1, results.2) else (results.1, results.2 + 1))
    (0, 0)

/-- Iteration of the slicing loop with an explicit bound on the number of
iterations: each non-final iteration consumes at least one element, so fuel
`l.length` is never exhausted when the step is positive. -/
def chunksAux {α : Type} (batch_size : Nat) : Nat → List α → List (List α)
  | _, [] => []
  | 0, _ :: _ => []
  | fuel + 1, x :: xs =>
    (x :: xs).take batch_size :: chunksAux batch_size fuel ((x :: xs).drop batch_size)

/-- The slices `problems[i:i+batch_size]` for `i in range(0, len(problems),
batch_size)`. A zero step raises ValueError in Python; it is modelled as no
batches and never arises under the claims' positive batch size. -/
def chunks {α : Type} (l : List α) (batch_size : Nat) : List (List α) :=
  if batch_size = 0 then [] else chunksAux batch_size l.length l

/-- Storage key of one problem (line 372). -/
def problemKey (p : Problem) : String := "problem:" ++ toString p.id

/-- The problem-upload phase (lines 366-380): walk the batches, build each
batch's entries in order, `put_bulk` them, and accumulate the success and
failure tallies. The compact-JSON value passed alongside each key is
abstracted as the problem record itself (no claim inspects stored values). -/
def upload_problems_phase (ok : String → Bool) (problems : List Problem)
    (batch_size : Nat) : Nat × Nat :=
  (chunks problems batch_size).foldl
    (fun counts batch =>
      (counts.1 + (put_bulk ok (batch.map (fun p => (problemKey p, p)))).1,
       counts.2 + (put_bulk ok (batch.map (fun p => (problemKey p, p)))).2))
    (0, 0)

/-! ## Pipeline Driver (`upload_file_to_kv` after parsing, lines 358-400, and
the reporting branch of `main`, lines 435-457) -/

/-- Outcome of one driver run over the already-parsed problem list. -/
structure RunResult where
  success_count : Nat
  failed_count : Nat
  essentials_attempted : Bool
  essentials_value : Option String
deriving DecidableEq, Repr

/-- The driver after parsing: with no problems, log the warning and return
`(0, 0)` at once (lines 360-362, no upload of any kind); otherwise batch-upload
every problem, then (unless skipped) stamp `last_updated := now` on the built
essentials entry, serialize it and issue the one extra `put` on key
`"essentials"`, tallied like any other write (lines 383-398). `now` stands for
`str(int(time.time()))`. -/
def upload_file_to_kv (ok : String → Bool) (problems : List Problem)
    (batch_size : Nat) (skip_essentials : Bool) (now : String) : RunResult :=
  if problems = [] then
    { success_count := 0, failed_count := 0,
      essentials_attempted := false, essentials_value := none }
  else
    let counts := upload_problems_phase ok problems batch_size
    if skip_essentials then
      { success_count := counts.1, failed_count := counts.2,
        essentials_attempted := false, essentials_value := none }
    else
      let essentials := stamp_last_updated (create_essentials_entry problems) now
      let value := essentialsJson essentials
      if ok "essentials" then
        { success_count := counts.1 + 1, failed_count := counts.2,
          essentials_attempted := true, essentials_value := some value }
      else
        { success_count := counts.1, failed_count := counts.2 + 1,
          essentials_attempted := true, essentials_value := some value }

/-- What the summary of `main` reports about the run. -/
inductive RunStatus where
  | success : RunStatus
  | degraded : Nat → RunStatus
deriving DecidableEq, Repr

/-- The summary branch of `main` (lines 450-453): the success message exactly
when `failed_count == 0`, otherwise the degraded warning carrying the failure
count. -/
def report_status (failed_count : Nat) : RunStatus :=
  if failed_count = 0 then RunStatus.success else RunStatus.degraded failed_count

/-- Exit code of `main` for a run whose `upload_file_to_kv` call returns:
control falls off the end of `main`, so the process exits 0 on both report
branches. `sys.exit(1)` is reached only for a missing input file or an
exception escaping `upload_file_to_kv`, neither of which occurs in a completed
run. -/
def main_exit_code (_r : RunResult) : Nat := 0

/-- Which normalizer variant the driver runs (line 330): the decision reads
only the file path's extension. The second argument is the content's declared
shape, available to the driver but never inspected. -/
inductive SourceKind where
  | tabular : SourceKind
  | structured : SourceKind
deriving DecidableEq, Repr

/-- Driver dispatch between the structured (JSON) and tabular (CSV) readers:
`if file_path.endswith('.json')`. -/
def select_normalizer (file_path : String) (_content_shape : SourceKind) : SourceKind :=
  if pyEndsWith file_path ".json" then SourceKind.structured else SourceKind.tabular

/-! ## Concrete sample data used by witnesses and counterexamples -/

/-- A concrete problem record with the given id. -/
def mkProblem (n : Int) : Problem :=
  { id := n, difficulty := "Easy", title := "T" ++ toString n, titleSlug := "t",
    url := "u", description := "d", solution_codes := [],
    metadata := { category := "Cat", topics := ["Array"], hints := [],
                  acceptance_rate := none, likes := 0, dislikes := 0,
                  similar_questions := [], extra := [] } }

/-- The five problems of the concrete batching scenario. -/
def fiveProblems : List Problem :=
  [mkProblem 1931, mkProblem 1932, mkProblem 1933, mkProblem 1934, mkProblem 1935]

/-! ## Helper lemmas about sorting and batching -/

/-- The strict comparison on summaries by id. -/
def essLT (a b : Essential) : Prop := a.id < b.id

instance : IsAntisymm Essential essLT :=
  ⟨fun a _ h1 h2 => absurd (lt_trans h1 h2) (lt_irrefl a.id)⟩

/-- A ≤-sorted summary list whose ids are pairwise distinct is strictly
sorted. -/
theorem sorted_essLT_of_nodup {l : List Essential} (hs : l.Sorted essLE)
    (hn : (l.map Essential.id).Nodup) : l.Sorted essLT := by
  have hne : l.Pairwise (fun a b => a.id ≠ b.id) := List.pairwise_map.mp hn
  exact (hs.and hne).imp fun h => lt_of_le_of_ne h.1 h.2

/-- The summary projection preserves ids. -/
theorem map_id_essentialOf (ps : List Problem) :
    (ps.map essentialOf).map Essential.id = ps.map Problem.id := by
  rw [List.map_map]
  rfl

/-- Two permuted summary lists with distinct ids have the same insertion
sort: both sorts are strictly sorted permutations of the same multiset. -/
theorem insertionSort_eq_of_perm_of_nodup {l₁ l₂ : List Essential}
    (hperm : l₁.Perm l₂) (hn : (l₁.map Essential.id).Nodup) :
    l₁.insertionSort essLE = l₂.insertionSort essLE := by
  have hp1 : (l₁.insertionSort essLE).Perm l₁ := List.perm_insertionSort essLE l₁
  have hp2 : (l₂.insertionSort essLE).Perm l₂ := List.perm_insertionSort essLE l₂
  have hperm12 : (l₁.insertionSort essLE).Perm (l₂.insertionSort essLE) :=
    hp1.trans (hperm.trans hp2.symm)
  have hn1 : ((l₁.insertionSort essLE).map Essential.id).Nodup :=
    ((hp1.map Essential.id).nodup_iff).mpr hn
  have hn2 : ((l₂.insertionSort essLE).map Essential.id).Nodup :=
    ((hperm12.map Essential.id).nodup_iff).mp hn1
  exact List.eq_of_perm_of_sorted hperm12
    (sorted_essLT_of_nodup (List.sorted_insertionSort essLE l₁) hn1)
    (sorted_essLT_of_nodup (List.sorted_insertionSort essLE l₂) hn2)

/-- With enough fuel, the concatenation of the slices restores the list. -/
theorem chunksAux_flatten {α : Type} (bs : Nat) (hbs : 0 < bs) :
    ∀ (fuel : Nat) (l : List α), l.length ≤ fuel → (chunksAux bs fuel l).flatten = l := by
  intro fuel
  induction fuel with
  | zero =>
    intro l hl
    have he : l = [] := List.eq_nil_of_length_eq_zero (Nat.le_zero.mp hl)
    subst he
    rfl
  | succ fuel ih =>
    intro l hl
    cases l with
    | nil => rfl
    | cons x xs =>
      have hlen : ((x :: xs).drop bs).length ≤ fuel := by
        simp only [List.length_drop, List.length_cons]
        simp only [List.length_cons] at hl
        omega
      simp only [chunksAux, List.flatten_cons, ih _ hlen]
      exact List.take_append_drop bs (x :: xs)

/-- With enough fuel, every slice is non-empty with at most `bs` elements. -/
theorem chunksAux_bounds {α : Type} (bs : Nat) (hbs : 0 < bs) :
    ∀ (fuel : Nat) (l : List α), l.length ≤ fuel →
      ∀ b ∈ chunksAux bs fuel l, b.length ≤ bs ∧ b ≠ [] := by
  intro fuel
  induction fuel with
  | zero =>
    intro l hl b hb
    have he : l = [] := List.eq_nil_of_length_eq_zero (Nat.le_zero.mp hl)
    subst he
    simp [chunksAux] at hb
  | succ fuel ih =>
    intro l hl b hb
    cases l with
    | nil => simp [chunksAux] at hb
    | cons x xs =>
      simp only [chunksAux, List.mem_cons] at hb
      rcases hb with rfl | hb
      · refine ⟨?_, ?_⟩
        · simp
        · intro he
          rw [List.take_eq_nil_iff] at he
          rcases he with he | he
          · omega
          · exact List.cons_ne_nil x xs he
      · have hlen : ((x :: xs).drop bs).length ≤ fuel := by
          simp only [List.length_drop, List.length_cons]
          simp only [List.length_cons] at hl
          omega
        exact ih _ hlen b hb

/-- With enough fuel, the number of slices is `ceil(n / bs)`. -/
theorem chunksAux_length {α : Type} (bs : Nat) (hbs : 0 < bs) :
    ∀ (fuel : Nat) (l : List α), l.length ≤ fuel →
      (chunksAux bs fuel l).length = (l.length + bs - 1) / bs := by
  intro fuel
  induction fuel with
  | zero =>
    intro l hl
    have he : l = [] := List.eq_nil_of_length_eq_zero (Nat.le_zero.mp hl)
    subst he
    simp [chunksAux]
    exact (Nat.div_eq_of_lt (by omega)).symm
  | succ fuel ih =>
    intro l hl
    cases l with
    | nil =>
      simp [chunksAux]
      exact (Nat.div_eq_of_lt (by omega)).symm
    | cons x xs =>
      have hlen : ((x :: xs).drop bs).length ≤ fuel := by
        simp only [List.length_drop, List.length_cons]
        simp only [List.length_cons] at hl
        omega
      simp only [chunksAux, List.length_cons, ih _ hlen, List.length_drop]
      by_cases hn : bs ≤ xs.length + 1
      · have h1 : xs.length + 1 + bs - 1 = (xs.length + 1 - bs + bs - 1) + bs := by omega
        rw [h1, Nat.add_div_right _ hbs]
      · have h0 : xs.length + 1 - bs = 0 := by omega
        rw [h0, Nat.div_eq_of_lt (by omega),
          show xs.length + 1 + bs - 1 = (xs.length + 1 - 1) + bs by omega,
          Nat.add_div_right _ hbs, Nat.div_eq_of_lt (by omega)]

/-- Positive-step instance of `chunksAux_flatten` for `chunks`. -/
theorem chunks_flatten {α : Type} (l : List α) (bs : Nat) (hbs : 0 < bs) :
    (chunks l bs).flatten = l := by
  unfold chunks
  rw [if_neg (by omega)]
  exact chunksAux_flatten bs hbs l.length l le_rfl

/-- Positive-step instance of `chunksAux_bounds` for `chunks`. -/
theorem chunks_bounds {α : Type} (l : List α) (bs : Nat) (hbs : 0 < bs) :
    ∀ b ∈ chunks l bs, b.length ≤ bs ∧ b ≠ [] := by
  unfold chunks
  rw [if_neg (by omega)]
  exact chunksAux_bounds bs hbs l.length l le_rfl

/-- Positive-step instance of `chunksAux_length` for `chunks`. -/
theorem chunks_length {α : Type} (l : List α) (bs : Nat) (hbs : 0 < bs) :
    (chunks l bs).length = (l.length + bs - 1) / bs := by
  unfold chunks
  rw [if_neg (by omega)]
  exact chunksAux_length bs hbs l.length l le_rfl

/-- The per-entry tally of `put_bulk` accounts for every entry exactly once. -/
theorem put_bulk_sum {V : Type} (ok : String → Bool) (entries : List (String × V)) :
    (put_bulk ok entries).1 + (put_bulk ok entries).2 = entries.length := by
  suffices h : ∀ acc : Nat × Nat,
      (entries.foldl
        (fun results entry =>
          if ok entry.1 then (results.1 + 1, results.2) else (results.1, results.2 + 1))
        acc).1 +
      (entries.foldl
        (fun results entry =>
          if ok entry.1 then (results.1 + 1, results.2) else (results.1, results.2 + 1))
        acc).2 = acc.1 + acc.2 + entries.length by
    simpa [put_bulk] using h (0, 0)
  induction entries with
  | nil => intro acc; simp
  | cons e es ih =>
    intro acc
    simp only [List.foldl_cons, List.length_cons]
    by_cases h : ok e.1 <;> simp [h] <;> rw [ih] <;> omega

/-- Folding the batch tallies accounts for every batched element once. -/
theorem upload_foldl_sum (ok : String → Bool) (batches : List (List Problem)) :
    ∀ acc : Nat × Nat,
      ((batches.foldl
          (fun counts batch =>
            (counts.1 + (put_bulk ok (batch.map (fun p => (problemKey p, p)))).1,
             counts.2 + (put_bulk ok (batch.map (fun p => (problemKey p, p)))).2))
          acc).1 +
       (batches.foldl
          (fun counts batch =>
            (counts.1 + (put_bulk ok (batch.map (fun p => (problemKey p, p)))).1,
             counts.2 + (put_bulk ok (batch.map (fun p => (problemKey p, p)))).2))
          acc).2) = acc.1 + acc.2 + (batches.map List.length).sum := by
  induction batches with
  | nil => intro acc; simp
  | cons b bs ih =>
    intro acc
    simp only [List.foldl_cons, List.map_cons, List.sum_cons]
    rw [ih]
    have hb := put_bulk_sum ok (b.map (fun p => (problemKey p, p)))
    simp only [List.length_map] at hb
    omega

/-- The upload phase's tallies account for every problem exactly once. -/
theorem upload_phase_sum (ok : String → Bool) (problems : List Problem)
    (bs : Nat) (hbs : 0 < bs) :
    (upload_problems_phase ok problems bs).1 +
      (upload_problems_phase ok problems bs).2 = problems.length := by
  unfold upload_problems_phase
  rw [upload_foldl_sum]
  have h1 : ((chunks problems bs).map List.length).sum = problems.length := by
    rw [← List.length_flatten, chunks_flatten problems bs hbs]
  omega

/-! # Theorems settling the claims -/

/-- Claim C2: for every integer id, the Filter Policy `should_process_problem`
returns true iff `id = 1262` or `id ≥ 1931`, and returns false for every other
id, in particular for 1261 and 1930. -/
theorem C2_filter_policy :
    (∀ id : Int, should_process_problem id = true ↔ (id = 1262 ∨ id ≥ 1931)) ∧
    should_process_problem 1261 = false ∧ should_process_problem 1930 = false := by
  refine ⟨fun id => ?_, by decide, by decide⟩
  unfold should_process_problem
  rcases eq_or_ne id 1262 with h | h
  · subst h; simp
  · have hb : (id == 1262) = false := by simpa using h
    by_cases h2 : id ≥ 1931 <;> simp [hb, h2, h]

/-- Claim C1 counterexample: the identifier "1262.0" is non-empty and parses as
a floating-point value whose integer part 1262 passes the Filter Policy, yet
`parse_csv_row` rejects the row: the source calls `int()` on the raw identifier
and never parses a float first. -/
theorem C1_counterexample :
    parse_csv_row [("frontendQuestionId", "1262.0"), ("title", "Two Sum")] = none ∧
    pyFloatAccepts "1262.0" = true ∧ should_process_problem 1262 = true := by
  refine ⟨by decide, by decide, by decide⟩

/-- Claim C1 (amended): `parse_csv_row` accepts the identifier field exactly
when it is non-empty after stripping and parses directly as a Python integer
(with no floating-point pre-parse, so a float-like identifier such as "1.0"
invalidates the row) and the parsed id passes the Filter Policy; an accepted
row's Problem carries exactly that integer id. -/
theorem C1_amended (row : List (String × String)) :
    ((parse_csv_row row).isSome = true ↔
      (pyStrip (dictGet row "frontendQuestionId" "") ≠ "" ∧
       ∃ n, parsePyInt (pyStrip (dictGet row "frontendQuestionId" "")) = some n ∧
         should_process_problem n = true)) ∧
    (∀ p, parse_csv_row row = some p →
       parsePyInt (pyStrip (dictGet row "frontendQuestionId" "")) = some p.id) := by
  by_cases h0 : pyStrip (dictGet row "frontendQuestionId" "") = ""
  · simp [parse_csv_row, h0]
  · cases hp : parsePyInt (pyStrip (dictGet row "frontendQuestionId" "")) with
    | none => simp [parse_csv_row, h0, hp]
    | some n =>
      by_cases hf : should_process_problem n
      · refine ⟨?_, ?_⟩
        · constructor
          · intro _
            exact ⟨h0, n, rfl, hf⟩
          · intro _
            simp [parse_csv_row, h0, hp, hf]
        · intro p hp2
          simp [parse_csv_row, h0, hp, hf] at hp2
          subst hp2
          rfl
      · simp [parse_csv_row, h0, hp, hf]

/-- Claim C9: the tabular Normalizer is total on raw rows — every row yields
either `none` or a Problem whose required fields are all determined: the parsed
integer id (which passed the Filter Policy) and the five stripped strings.
The fallible parses inside the source's `try` block are all modelled by
best-effort defaults or the `none` returns, so no fault escapes and no
partially-filled Problem is produced. -/
theorem C9_normalizer_total (row : List (String × String)) :
    parse_csv_row row = none ∨
    ∃ p, parse_csv_row row = some p ∧
      parsePyInt (pyStrip (dictGet row "frontendQuestionId" "")) = some p.id ∧
      should_process_problem p.id = true ∧
      p.difficulty = pyStrip (dictGet row "difficulty" "") ∧
      p.title = pyStrip (dictGet row "title" "") ∧
      p.titleSlug = pyStrip (dictGet row "titleSlug" "") ∧
      p.url = pyStrip (dictGet row "url" "") ∧
      p.description = pyStrip (dictGet row "description" "") := by
  by_cases h0 : pyStrip (dictGet row "frontendQuestionId" "") = ""
  · left; simp [parse_csv_row, h0]
  · cases hp : parsePyInt (pyStrip (dictGet row "frontendQuestionId" "")) with
    | none => left; simp [parse_csv_row, h0, hp]
    | some n =>
      by_cases hf : should_process_problem n
      · right
        refine ⟨csvProblemOf row n, ?_, ?_, ?_, rfl, rfl, rfl, rfl, rfl⟩
        · simp [parse_csv_row, h0, hp, hf]
        · rfl
        · exact hf
      · left; simp [parse_csv_row, h0, hp, hf]

/-- Claim C10: a structured-source problem object without a `category` key gets
`metadata.category = "General"` from `parse_json_problem`, while the tabular
normalizer `parse_csv_row` defaults a missing or blank category to the empty
string; the two defaults differ. -/
theorem C10_category_defaults :
    (∀ json_data p, jGet json_data "category" = none →
       parse_json_problem json_data = some p →
       p.metadata.category = JVal.str "General") ∧
    (∀ row q, pyStrip (dictGet row "category" "") = "" →
       parse_csv_row row = some q → q.metadata.category = "") ∧
    JVal.str "General" ≠ JVal.str "" := by
  refine ⟨?_, ?_, ?_⟩
  · intro json_data p habs hp
    by_cases ht : (jGetD json_data "questionId" JVal.null).truthy
    · cases hq : pyIntOfJVal (jGetD json_data "questionId" JVal.null) with
      | none => simp [parse_json_problem, ht, hq] at hp
      | some n =>
        by_cases hf : should_process_problem n
        · simp only [parse_json_problem, ht, hq, hf, if_true] at hp
          cases hp
          simp [jsonProblemOf, jGetD, habs]
        · simp [parse_json_problem, ht, hq, hf] at hp
    · simp [parse_json_problem, ht] at hp
  · intro row q hcat hq
    by_cases h0 : pyStrip (dictGet row "frontendQuestionId" "") = ""
    · simp [parse_csv_row, h0] at hq
    · cases hp : parsePyInt (pyStrip (dictGet row "frontendQuestionId" "")) with
      | none => simp [parse_csv_row, h0, hp] at hq
      | some n =>
        by_cases hf : should_process_problem n
        · simp only [parse_csv_row, h0, hp, hf, if_true, if_false] at hq
          simp at hq
          rw [← hq]
          simpa [csvProblemOf] using hcat
        · simp [parse_csv_row, h0, hp, hf] at hq
  · intro h
    injection h with h2
    exact absurd h2 (by decide)

/-- Claim C7 counterexample: a source whose declared content shape is
structured but whose path does not end in ".json" is handed to the tabular
normalizer — the dispatch reads the extension, not the content. -/
theorem C7_counterexample :
    select_normalizer "problems.txt" SourceKind.structured = SourceKind.tabular ∧
    SourceKind.tabular ≠ SourceKind.structured := by
  refine ⟨by decide, by decide⟩

/-- Claim C7 (amended): the driver selects the normalizer variant from the file
extension alone — structured exactly when the path ends in ".json" — and the
content's declared shape never influences the choice. -/
theorem C7_amended (file_path : String) (shape shape' : SourceKind) :
    select_normalizer file_path shape = select_normalizer file_path shape' ∧
    (select_normalizer file_path shape = SourceKind.structured ↔
      pyEndsWith file_path ".json" = true) := by
  refine ⟨rfl, ?_⟩
  unfold select_normalizer
  by_cases h : pyEndsWith file_path ".json" = true <;> simp [h]

/-- Claim C4: the summary of a completed run reports success exactly when its
failure count is zero; a positive failure count yields the degraded status
carrying that count instead of success. -/
theorem C4_report_status (r : RunResult) :
    (report_status r.failed_count = RunStatus.success ↔ r.failed_count = 0) ∧
    (0 < r.failed_count →
      report_status r.failed_count = RunStatus.degraded r.failed_count) := by
  unfold report_status
  by_cases h : r.failed_count = 0 <;> simp [h]

/-- Claim C8 counterexample: the essentials entry built by
`create_essentials_entry` carries `last_updated` as an explicit `None`
placeholder, and `json.dumps` renders it — the serialized index contains the
`last_updated` key with value `null`; the field is present, not absent. -/
theorem C8_counterexample :
    (create_essentials_entry [mkProblem 1262]).last_updated = none ∧
    essentialsJson (create_essentials_entry [mkProblem 1262]) =
      "\x7b\"problems\":[\x7b\"id\":1262,\"title\":\"T1262\",\"difficulty\":\"Easy\",\"category\":\"Cat\",\"topics\":[\"Array\"]\x7d],\"count\":1,\"last_updated\":null\x7d" := by
  exact ⟨rfl, rfl⟩

/-- Claim C8 (amended): the Essentials Builder never sets a timestamp — it
builds the entry with the `last_updated` null placeholder — and the timestamp
string is populated only by the caller at upload time, which stamps the current
time before serializing and uploading. -/
theorem C8_last_updated (problems : List Problem) (now : String) :
    (create_essentials_entry problems).last_updated = none ∧
    (stamp_last_updated (create_essentials_entry problems) now).last_updated =
      some now := by
  exact ⟨rfl, rfl⟩

/-- Claim C5 counterexample: with zero valid problems the run does not abort
with a non-zero exit signal — the driver returns counts (0, 0) after its
warning, attempts no essentials upload, and `main` then reports success and
the process exits 0. -/
theorem C5_counterexample :
    upload_file_to_kv (fun _ => true) [] 50 false "1700000000" =
      { success_count := 0, failed_count := 0,
        essentials_attempted := false, essentials_value := none } ∧
    report_status
      (upload_file_to_kv (fun _ => true) [] 50 false "1700000000").failed_count =
      RunStatus.success ∧
    main_exit_code (upload_file_to_kv (fun _ => true) [] 50 false "1700000000") = 0 := by
  exact ⟨rfl, rfl, rfl⟩

/-- Claim C5 (amended): if parsing yields zero valid Problems, the driver logs
its warning and returns early with counts (0, 0) and no essentials upload of
any kind — but the run then reports success and exits 0 rather than aborting
with a non-zero signal. An essentials upload is only ever attempted when at
least one valid Problem exists. -/
theorem C5_empty_run (ok : String → Bool) (problems : List Problem)
    (batch_size : Nat) (skip_essentials : Bool) (now : String) :
    (problems = [] →
      upload_file_to_kv ok problems batch_size skip_essentials now =
        { success_count := 0, failed_count := 0,
          essentials_attempted := false, essentials_value := none } ∧
      report_status
        (upload_file_to_kv ok problems batch_size skip_essentials now).failed_count =
        RunStatus.success ∧
      main_exit_code
        (upload_file_to_kv ok problems batch_size skip_essentials now) = 0) ∧
    ((upload_file_to_kv ok problems batch_size skip_essentials now).essentials_attempted =
        true → problems ≠ []) := by
  by_cases hp : problems = []
  · subst hp
    refine ⟨fun _ => ⟨rfl, rfl, rfl⟩, ?_⟩
    intro h
    simp [upload_file_to_kv] at h
  · exact ⟨fun h => absurd h hp, fun _ => hp⟩

/-- Claim C6: for problems with pairwise-distinct ids, `create_essentials_entry`
is invariant under permutation of its input; its `problems` sequence is the
5-field summaries sorted ascending by id and its `count` equals that sequence's
length. -/
theorem C6_essentials_deterministic (ps qs : List Problem)
    (hperm : ps.Perm qs) (hnodup : (ps.map Problem.id).Nodup) :
    create_essentials_entry ps = create_essentials_entry qs ∧
    (create_essentials_entry ps).problems.Sorted essLE ∧
    (create_essentials_entry ps).problems.Perm (ps.map essentialOf) ∧
    (create_essentials_entry ps).count = (create_essentials_entry ps).problems.length := by
  have hids : ((ps.map essentialOf).map Essential.id).Nodup := by
    rw [map_id_essentialOf]
    exact hnodup
  have hsorteq :
      (ps.map essentialOf).insertionSort essLE = (qs.map essentialOf).insertionSort essLE :=
    insertionSort_eq_of_perm_of_nodup (hperm.map essentialOf) hids
  refine ⟨?_, ?_, ?_, rfl⟩
  · simp only [create_essentials_entry]
    rw [hsorteq]
  · exact List.sorted_insertionSort essLE (ps.map essentialOf)
  · exact List.perm_insertionSort essLE (ps.map essentialOf)

/-- Claim C6 witness: the ids `[1931, 1262, 2000]` and a permutation of them
build the same essentials entry, whose summaries come out in the ascending
order `[1262, 1931, 2000]`. -/
theorem C6_witness :
    create_essentials_entry [mkProblem 1931, mkProblem 1262, mkProblem 2000] =
      create_essentials_entry [mkProblem 1262, mkProblem 2000, mkProblem 1931] ∧
    (create_essentials_entry [mkProblem 1931, mkProblem 1262, mkProblem 2000]).problems.map
      Essential.id = [1262, 1931, 2000] := by
  refine ⟨(C6_essentials_deterministic _ _ (by decide) (by decide)).1, by decide⟩

/-- Claim C3: for a positive batch size, the upload phase partitions the
problems into contiguous order-preserving batches of at most `batch_size`
records each (the last possibly smaller, none empty), `ceil(n / batch_size)`
of them; every record's write is attempted exactly once, and the resulting
tallies satisfy `success + failed = n` whatever writes the store fails. -/
theorem C3_batching (ok : String → Bool) (problems : List Problem) (batch_size : Nat)
    (hbs : 0 < batch_size) :
    (chunks problems batch_size).flatten = problems ∧
    (∀ b ∈ chunks problems batch_size, b.length ≤ batch_size ∧ b ≠ []) ∧
    (chunks problems batch_size).length = (problems.length + batch_size - 1) / batch_size ∧
    (upload_problems_phase ok problems batch_size).1 +
      (upload_problems_phase ok problems batch_size).2 = problems.length := by
  exact ⟨chunks_flatten problems batch_size hbs, chunks_bounds problems batch_size hbs,
    chunks_length problems batch_size hbs, upload_phase_sum ok problems batch_size hbs⟩

/-- Claim C3 witness: five problems with batch size 2 form exactly the batches
of sizes 2, 2, 1, and one simulated write failure (key "problem:1933") yields
tallies success 4, failed 1 with the phase running to completion. -/
theorem C3_witness :
    ((chunks fiveProblems 2).flatten = fiveProblems ∧
     (∀ b ∈ chunks fiveProblems 2, b.length ≤ 2 ∧ b ≠ []) ∧
     (chunks fiveProblems 2).length = (fiveProblems.length + 2 - 1) / 2 ∧
     (upload_problems_phase (fun k => k != "problem:1933") fiveProblems 2).1 +
       (upload_problems_phase (fun k => k != "problem:1933") fiveProblems 2).2 =
       fiveProblems.length) ∧
    (chunks fiveProblems 2).map List.length = [2, 2, 1] ∧
    upload_problems_phase (fun k => k != "problem:1933") fiveProblems 2 = (4, 1) := by
  refine ⟨C3_batching (fun k => k != "problem:1933") fiveProblems 2 (by decide),
    by decide, by decide⟩

end CloudInterview
